import Mathlib

/-!
Shallow embedding of the Pivio wallpaper manager (src/config.py, src/scanner.py,
src/system.py, src/app.py) and proofs about its error handling, state handling
and volume persistence.

External effects (subprocess calls, filesystem reads/writes) are modelled by
explicit environment records: each external call's outcome is a field of the
environment, and code that lets a Python exception escape is modelled with
`Except`, while code that catches exceptions locally is a total function.
-/

namespace Pivio

/-! ## Python string primitives used by the code (modelled over `List Char`) -/

/-- Model of Python `str.strip()`: drop whitespace from both ends. -/
def pyStrip (s : String) : String :=
  String.mk (((s.data.dropWhile Char.isWhitespace).reverse.dropWhile
    Char.isWhitespace).reverse)

/-- Model of Python `str.lower()` (ASCII case folding, as used on extensions
and the `type` metadata value). -/
def pyLower (s : String) : String :=
  String.mk (s.data.map Char.toLower)

/-- Digits-only string to `Nat`; `none` when empty or any non-digit occurs. -/
def digitsToNat (cs : List Char) : Option Nat :=
  match cs with
  | [] => none
  | _ =>
    if cs.all Char.isDigit then
      some (cs.foldl (fun a c => a * 10 + (c.toNat - 48)) 0)
    else none

/-- Model of Python `int(s)` on an already-stripped string: an optional sign
followed by one or more digits; anything else raises `ValueError` (`none`). -/
def pyInt (s : String) : Option Int :=
  match s.data with
  | [] => none
  | '-' :: rest => (digitsToNat rest).map (fun n => -(n : Int))
  | '+' :: rest => (digitsToNat rest).map (fun n => (n : Int))
  | cs => (digitsToNat cs).map (fun n => (n : Int))

/-! ## config.py constants (the path-valued constants stay abstract) -/

/-- `VALID_VIDEO_EXTENSIONS` from config.py. -/
def VALID_VIDEO_EXTENSIONS : List String := [".mp4", ".webm"]

/-- `PREVIEW_EXTENSIONS` from config.py (exact preview file names). -/
def PREVIEW_EXTENSIONS : List String :=
  ["preview.jpg", "preview.png", "preview.gif", "preview.jpeg"]

/-! ## system.py: volume persistence

The volume file is modelled as `Option String`: `none` when absent, otherwise
its text content. -/

/-- `save_volume` from system.py.  `mkdir` + `write_text(str(volume))` inside a
`try` that catches every exception and returns `False`; on failure the file is
left as it was.  `writeOk` is the environment's verdict on the write. -/
def save_volume (writeOk : Bool) (volume : Int) (file : Option String) :
    Bool × Option String :=
  if writeOk then (true, some (toString volume)) else (false, file)

/-- `get_volume` from system.py: if the file exists, `int(content.strip())`;
`ValueError`/`OSError` fall through to the default `50`, as does an absent
file. -/
def get_volume (file : Option String) : Int :=
  match file with
  | none => 50
  | some content =>
    match pyInt (pyStrip content) with
    | some n => n
    | none => 50

/-! ## scanner.py -/

/-- Python exceptions that can escape the scanner. -/
inductive PyError
  | attributeError  -- e.g. `None.lower()`
  | typeError       -- e.g. `os.path.splitext(None)`, `os.path.join(..., None)`
deriving Repr, DecidableEq

/-- `os.path.join(a, b)` for the plain relative names the scanner joins. -/
def pathJoin (a b : String) : String := a ++ "/" ++ b

/-- The extension part of `os.path.splitext(p)[1]`: the substring from the
last dot, provided some character strictly before that dot (in the basename)
is not itself a dot; otherwise the empty string.  The scanner only passes
bare file names, so path separators are not modelled. -/
def splitextExt (p : String) : String :=
  let rs := p.data.reverse
  let pre := rs.takeWhile (fun c => c ≠ '.')
  match rs.dropWhile (fun c => c ≠ '.') with
  | [] => ""
  | _ :: before =>
    if before.any (fun c => c ≠ '.') then String.mk ('.' :: pre.reverse)
    else ""

/-- The result of `json.load` on a folder's `project.json`, restricted to the
keys the scanner reads (`.get` returns `None` for a missing key).  `truthy`
records whether the parsed dict is non-empty: `scan` tests the whole dict for
truthiness (`if not project_json: continue`), so an empty dict is skipped. -/
structure ProjectJson where
  title : Option String
  file : Option String
  ptype : Option String  -- the "type" key
  truthy : Bool
deriving Repr, DecidableEq

/-- One candidate wallpaper folder: its name, its parsed `project.json`
(`none` when the file is absent or `json.load` fails, both of which
`parse_project_json` turns into `None`), and the names of the files present
inside it (for the media-existence check and the preview lookup). -/
structure Folder where
  name : String
  projectJson : Option ProjectJson
  files : List String
deriving Repr, DecidableEq

/-- The `Wallpaper` dataclass from scanner.py.  The Python annotations say
`str`, but `scan` can in fact store `None` for `title` and
`wallpaper_type` (via `dict.get`), so those fields are `Option`. -/
structure Wallpaper where
  title : Option String
  file_path : String
  preview_path : Option String
  folder_path : String
  wallpaper_type : Option String
deriving Repr, DecidableEq

/-- `WallpaperScanner.find_preview`: walk the folder's file list and return
the first name that is literally one of `PREVIEW_EXTENSIONS`, joined to the
folder path; `None` when no file matches. -/
def find_preview (folderPath : String) (files : List String) : Option String :=
  match files.find? (fun f => decide (f ∈ PREVIEW_EXTENSIONS)) with
  | some f => some (pathJoin folderPath f)
  | none => none

/-- The body of `scan`'s per-folder loop iteration, for one folder:
`.ok none` models `continue` (folder skipped), `.ok (some w)` models
appending `w`, and `.error e` models a Python exception escaping the loop
(there is no `try` around the loop body). -/
def processFolder (workshopPath : String) (filterVideosOnly : Bool)
    (folder : Folder) : Except PyError (Option Wallpaper) :=
  match folder.projectJson with
  | none => .ok none         -- absent / unparsable project.json: skipped
  | some pj =>
    if pj.truthy = false then .ok none   -- `if not project_json: continue`
    else
      let folderPath := pathJoin workshopPath folder.name
      if filterVideosOnly then
        match pj.ptype with
        | none => .error .attributeError  -- `None.lower()` raises
        | some t =>
          if pyLower t ∈ (["scene", "web"] : List String) then .ok none
          else
            match pj.file with
            | none => .error .typeError   -- `os.path.splitext(None)` raises
            | some fn =>
              if pyLower (splitextExt fn) ∉ VALID_VIDEO_EXTENSIONS then .ok none
              else
                if fn ∈ folder.files then
                  .ok (some { title := pj.title
                              file_path := pathJoin folderPath fn
                              preview_path := find_preview folderPath folder.files
                              folder_path := folderPath
                              wallpaper_type := pj.ptype })
                else .ok none
      else
        match pj.file with
        | none => .error .typeError       -- `os.path.join(..., None)` raises
        | some fn =>
          if fn ∈ folder.files then
            .ok (some { title := pj.title
                        file_path := pathJoin folderPath fn
                        preview_path := find_preview folderPath folder.files
                        folder_path := folderPath
                        wallpaper_type := pj.ptype })
          else .ok none

/-- The `scan` loop over all candidate folders, in directory order. -/
def scanFolders (workshopPath : String) (filterVideosOnly : Bool) :
    List Folder → Except PyError (List Wallpaper)
  | [] => .ok []
  | f :: rest => do
    let w? ← processFolder workshopPath filterVideosOnly f
    let ws ← scanFolders workshopPath filterVideosOnly rest
    match w? with
    | some w => .ok (w :: ws)
    | none => .ok ws

/-- The sort key `lambda w: w.title.lower()` of `scan`'s final sort. -/
def titleKey (w : Wallpaper) : String := pyLower (w.title.getD "")

/-- Stable insertion used to model `list.sort(key=...)`. -/
def insertByTitle (w : Wallpaper) : List Wallpaper → List Wallpaper
  | [] => [w]
  | x :: xs =>
    if titleKey x < titleKey w then x :: insertByTitle w xs
    else w :: x :: xs

/-- Stable sort of the collected wallpapers by `titleKey`. -/
def sortWallpapers : List Wallpaper → List Wallpaper
  | [] => []
  | w :: ws => insertByTitle w (sortWallpapers ws)

/-- `wallpapers.sort(key=lambda w: w.title.lower())`: Python applies the key
to every element, so any `None` title raises `AttributeError` out of `scan`;
otherwise the list is sorted case-insensitively by title. -/
def sortByTitle (ws : List Wallpaper) : Except PyError (List Wallpaper) :=
  if ws.all (fun w => w.title.isSome) then .ok (sortWallpapers ws)
  else .error .attributeError

/-- `WallpaperScanner.scan`: `workshopPath = none` models
`get_workshop_path()` finding no existing candidate directory (empty result,
no error); otherwise the folders are processed in order and the survivors
sorted by title.  An exception anywhere aborts the whole scan. -/
def scan (workshopPath : Option String) (folders : List Folder)
    (filterVideosOnly : Bool) : Except PyError (List Wallpaper) :=
  match workshopPath with
  | none => .ok []
  | some wp => do
    let ws ← scanFolders wp filterVideosOnly folders
    sortByTitle ws

/-! ## system.py: SystemdManager -/

/-- Environment for `create_service`.  `chmodOk` / `mkdirOk` are the verdicts
on `os.chmod(service_script_path, 0o755)` and
`service_path.parent.mkdir(...)`, both of which run BEFORE the `try` block;
`templateRead` is the template's text, `none` when `read_text()` raises;
`writeOk` is the verdict on opening and writing the unit file. -/
structure CreateServiceEnv where
  chmodOk : Bool
  mkdirOk : Bool
  templateRead : Option String
  writeOk : Bool

/-- `SystemdManager.create_service`.  Returns `.error ()` when a Python
exception escapes the call (chmod or mkdir failing, which the `try` does not
cover), and otherwise `.ok (result, written)` where `result` is the boolean
return value and `written` the unit-file text written, if any.  The template
placeholders are substituted with `str.replace` semantics. -/
def create_service (env : CreateServiceEnv) (scriptPath videoPath : String) :
    Except Unit (Bool × Option String) :=
  if env.chmodOk = false then .error ()       -- os.chmod raises out of the call
  else if env.mkdirOk = false then .error ()  -- mkdir raises out of the call
  else
    match env.templateRead with
    | none => .ok (false, none)               -- caught: `return False`
    | some template =>
      let service := template.replace "\x7b\x7bVIDEO_PATH\x7d\x7d" videoPath
      let service := service.replace "\x7b\x7bSERVICE_SCRIPT_PATH\x7d\x7d" scriptPath
      if env.writeOk then .ok (true, some service)
      else .ok (false, none)                  -- caught: `return False`

/-- The dict returned by `SystemdManager.get_service_status` (`status` is the
`'status'` key, the spec's `rawStatus`). -/
structure ServiceStatus where
  active : Bool
  enabled : Bool
  status : String
deriving Repr, DecidableEq

/-- Environment for `get_service_status`: each `subprocess.run` (no
`check=True`) either completes with an exit code and stdout, or raises
(`none`), e.g. because the supervisor binary is missing. -/
structure StatusEnv where
  activeCheck : Option (Int × String)
  enabledCheck : Option (Int × String)

/-- `SystemdManager.get_service_status`.  The result dict starts from the
defaults and is mutated field by field inside a `try` whose handler swallows
every exception, so the function is total: a raise in the first check leaves
all defaults, while a raise in the second check keeps the first check's
updates to `status` and `active`. -/
def get_service_status (env : StatusEnv) : ServiceStatus :=
  match env.activeCheck with
  | none => { active := false, enabled := false, status := "unknown" }
  | some (rc1, out1) =>
    match env.enabledCheck with
    | none => { active := rc1 == 0, enabled := false, status := pyStrip out1 }
    | some (rc2, _) =>
      { active := rc1 == 0, enabled := rc2 == 0, status := pyStrip out1 }

/-! ## system.py: apply orchestration -/

/-- Verdicts of the five external steps `apply_wallpaper` can take, in
program order.  `create_service` failures are collapsed to a boolean here:
this orchestration-level model only sees its returned result (a raising
`create_service` is covered by the `create_service` model above). -/
structure SupervisorEnv where
  stopOk : Bool
  createOk : Bool
  reloadOk : Bool
  enableOk : Bool
  startOk : Bool
deriving Repr, DecidableEq

/-- The external commands `apply_wallpaper` can issue, for recording which
steps were attempted. -/
inductive Cmd
  | stopSvc | createSvc | reloadDaemon | enableSvc | startSvc
deriving Repr, DecidableEq

/-- `apply_wallpaper` from system.py, returning its boolean result together
with the trace of steps attempted.  `stop_service`'s and `reload_daemon`'s
results are discarded by the source; `create_service`, `enable_service` and
`start_service` each gate the rest with an early `return False`. -/
def apply_wallpaper (env : SupervisorEnv) : Bool × List Cmd :=
  let _stopResult := env.stopOk             -- SystemdManager.stop_service(): ignored
  let t := [Cmd.stopSvc, Cmd.createSvc]
  if env.createOk = false then (false, t)
  else
    let _reloadResult := env.reloadOk       -- SystemdManager.reload_daemon(): ignored
    let t := t ++ [Cmd.reloadDaemon, Cmd.enableSvc]
    if env.enableOk = false then (false, t)
    else
      let t := t ++ [Cmd.startSvc]
      if env.startOk = false then (false, t)
      else (true, t)

/-! ## app.py: persisted active-wallpaper state and orchestration handlers

The active-wallpaper state file is modelled as `Option String`
(`none` = absent). -/

/-- The on-disk state `app.py` manipulates. -/
structure AppState where
  stateFile : Option String
deriving Repr, DecidableEq

/-- `save_current_wallpaper` from app.py: `mkdir` + `write_text` with NO
exception handling, so a failing write (`writeOk = false`) raises out of the
call; on success the state file holds the path. -/
def save_current_wallpaper (writeOk : Bool) (path : String) :
    Except Unit AppState :=
  if writeOk then .ok { stateFile := some path } else .error ()

/-- `clear_current_wallpaper` from app.py: unlink the state file if it
exists, otherwise do nothing. -/
def clear_current_wallpaper (s : AppState) : AppState :=
  match s.stateFile with
  | some _ => { stateFile := none }
  | none => s

/-- Filesystem view used by `get_current_wallpaper`'s `Path(path).exists()`
check. -/
structure FsEnv where
  pathExists : String → Bool

/-- `get_current_wallpaper` from app.py: `None` when the supervisor reports
the service inactive; otherwise the stripped state-file content, provided it
is non-empty and still exists on disk. -/
def get_current_wallpaper (status : ServiceStatus) (s : AppState)
    (fs : FsEnv) : Option String :=
  if status.active then
    match s.stateFile with
    | some content =>
      let path := pyStrip content
      if path ≠ "" ∧ fs.pathExists path = true then some path else none
    | none => none
  else none

/-- `MainWindow._on_apply` restricted to its state effects: run
`apply_wallpaper`; on success call `save_current_wallpaper` (whose write can
raise, uncaught here); on failure only show an error dialog, leaving the
state file untouched.  Returns the final state with the success flag. -/
def on_apply (env : SupervisorEnv) (writeOk : Bool) (path : String)
    (s : AppState) : Except Unit (AppState × Bool) :=
  if (apply_wallpaper env).1 then
    match save_current_wallpaper writeOk path with
    | .ok s2 => .ok (s2, true)
    | .error e => .error e
  else .ok (s, false)

/-- Verdicts of the two supervisor calls `_on_stop` makes (both catch
`CalledProcessError` internally and return a boolean). -/
structure StopEnv where
  stopOk : Bool
  disableOk : Bool

/-- `MainWindow._on_stop` restricted to its state effects: `stop_service`
and `disable_service` are invoked but their boolean results discarded, then
the state file is cleared unconditionally. -/
def on_stop (env : StopEnv) (s : AppState) : AppState :=
  let _stopResult := env.stopOk
  let _disableResult := env.disableOk
  clear_current_wallpaper s

/-! ## Concrete folders used to evaluate the scanner -/

/-- A well-formed wallpaper folder: complete metadata, media file present. -/
def goodFolder : Folder :=
  { name := "111"
    projectJson := some { title := some "Good", file := some "good.mp4",
                          ptype := some "video", truthy := true }
    files := ["good.mp4", "project.json", "preview.jpg"] }

/-- A folder whose `project.json` parses but has no `type` key. -/
def missingTypeFolder : Folder :=
  { name := "222"
    projectJson := some { title := some "Ocean", file := some "ocean.mp4",
                          ptype := none, truthy := true }
    files := ["ocean.mp4", "project.json"] }

/-- A folder whose `project.json` parses but has no `file` key. -/
def missingFileFolder : Folder :=
  { name := "333"
    projectJson := some { title := some "Lake", file := none,
                          ptype := some "video", truthy := true }
    files := ["project.json"] }

/-- A folder whose `project.json` parses but has no `title` key. -/
def missingTitleFolder : Folder :=
  { name := "444"
    projectJson := some { title := none, file := some "a.mp4",
                          ptype := some "video", truthy := true }
    files := ["a.mp4", "project.json"] }

/-! ## Theorems -/

/-- Claim C1, counterexample: in the run where every step succeeds except the
supervisor reload (`reloadOk = false`), `apply_wallpaper` still reports
success, so a failure of step 3 does NOT make the overall result a failure as
the claim states. -/
theorem C1_counterexample :
    (apply_wallpaper ⟨true, true, false, true, true⟩).1 = true := rfl

/-- Claim C1, amended: a failure of unit generation (step 2), enable
(step 4) or start (step 5) aborts the remaining sequence (the trace stops at
the failing step) and the overall result is failure; the reload step's result
is discarded, so `apply_wallpaper` succeeds exactly when create, enable and
start all succeed, regardless of the reload (and stop) outcomes. -/
theorem C1_amended (st c r e s : Bool) :
    ((apply_wallpaper ⟨st, c, r, e, s⟩).1 = (c && e && s)) ∧
    ((apply_wallpaper ⟨st, false, r, e, s⟩).2 = [Cmd.stopSvc, Cmd.createSvc]) ∧
    ((apply_wallpaper ⟨st, true, r, false, s⟩).2 =
      [Cmd.stopSvc, Cmd.createSvc, Cmd.reloadDaemon, Cmd.enableSvc]) ∧
    ((apply_wallpaper ⟨st, true, r, true, false⟩).2 =
      [Cmd.stopSvc, Cmd.createSvc, Cmd.reloadDaemon, Cmd.enableSvc, Cmd.startSvc]) := by
  refine ⟨?_, rfl, rfl, rfl⟩
  cases c <;> cases e <;> cases s <;> rfl

/-- Claim C2: if the enable step fails, `_on_apply` reports failure and the
persisted active-wallpaper state is returned exactly as it was before the
call (the state file is written only after the whole sequence succeeds). -/
theorem C2_enable_failure_preserves_state (env : SupervisorEnv)
    (writeOk : Bool) (path : String) (s : AppState)
    (h : env.enableOk = false) :
    on_apply env writeOk path s = Except.ok (s, false) := by
  obtain ⟨st, c, r, e, sOk⟩ := env
  simp only at h
  subst h
  cases c <;> rfl

/-- Witness for C2 at a concrete run: create succeeds, enable fails, the old
persisted path survives and the result is failure. -/
theorem C2_witness :
    on_apply ⟨true, true, true, false, true⟩ true "/new.mp4"
      ⟨some "/old.mp4"⟩ = Except.ok (⟨some "/old.mp4"⟩, false) :=
  C2_enable_failure_preserves_state ⟨true, true, true, false, true⟩ true
    "/new.mp4" ⟨some "/old.mp4"⟩ rfl

/-- Claim C3, code bug: a folder whose `project.json` parses but lacks a
required field does NOT get skipped — with `filter_videos_only = true` a
missing `type` raises `AttributeError` (`None.lower()`), a missing `file`
raises `TypeError` (`os.path.splitext(None)`), and a missing `title` raises
`AttributeError` in the final sort; each aborts the whole scan, losing the
well-formed sibling folder, which alone would have produced a result. -/
theorem C3_missing_required_field_aborts_scan :
    scan (some "/ws") [goodFolder, missingTypeFolder] true =
      Except.error PyError.attributeError ∧
    scan (some "/ws") [goodFolder, missingFileFolder] true =
      Except.error PyError.typeError ∧
    scan (some "/ws") [goodFolder, missingTitleFolder] true =
      Except.error PyError.attributeError ∧
    scan (some "/ws") [goodFolder] true =
      Except.ok [{ title := some "Good", file_path := "/ws/111/good.mp4",
                   preview_path := some "/ws/111/preview.jpg",
                   folder_path := "/ws/111",
                   wallpaper_type := some "video" }] :=
  ⟨rfl, rfl, rfl, rfl⟩

/-- Claim C4, code bug: a failure of `os.chmod` on the launcher script or of
`mkdir` on the unit file's parent directory escapes `create_service` as an
exception (both run before the `try` block), contradicting the claim that
every such condition is returned as a boolean failure; only an unreadable
template and a failing write are caught and returned as `False`. -/
theorem C4_filesystem_errors :
    create_service ⟨false, true, some "T", true⟩ "/opt/s.sh" "/v.mp4" =
      Except.error () ∧
    create_service ⟨true, false, some "T", true⟩ "/opt/s.sh" "/v.mp4" =
      Except.error () ∧
    create_service ⟨true, true, none, true⟩ "/opt/s.sh" "/v.mp4" =
      Except.ok (false, none) ∧
    create_service ⟨true, true, some "T", false⟩ "/opt/s.sh" "/v.mp4" =
      Except.ok (false, none) :=
  ⟨rfl, rfl, rfl, rfl⟩

/-- Claim C5, counterexample: when the is-active check succeeds (exit code 0,
stdout "active") and the is-enabled check then raises, `get_service_status`
does NOT return the all-defaults dict: the first check's updates to `active`
and `status` survive. -/
theorem C5_counterexample :
    get_service_status ⟨some (0, "active"), none⟩ ≠
      ⟨false, false, "unknown"⟩ := by decide

/-- Claim C5, amended: `get_service_status` never raises (it is a total
function; every exception is swallowed).  If the FIRST supervisor check
raises, the result is exactly the defaults
`{active := false, enabled := false, status := "unknown"}`; if the first
check completes and the second raises, the result keeps the first check's
active flag and stripped stdout, with only `enabled` left at its default. -/
theorem C5_amended (rc : Int) (out : String) :
    get_service_status ⟨none, none⟩ = ⟨false, false, "unknown"⟩ ∧
    get_service_status ⟨none, some (rc, out)⟩ = ⟨false, false, "unknown"⟩ ∧
    get_service_status ⟨some (rc, out), none⟩ =
      ⟨rc == 0, false, pyStrip out⟩ :=
  ⟨rfl, rfl, rfl⟩

/-- Claim C6, counterexample: a write error on the active-wallpaper state
file escapes `save_current_wallpaper` as an exception (the function has no
handler), so not every state-file write error is surfaced as a boolean
failure. -/
theorem C6_counterexample :
    save_current_wallpaper false "/w.mp4" = Except.error () := rfl

/-- Claim C6, amended: a write error on the volume file is caught locally by
`save_volume` and surfaced as the boolean `false` (with `true` on success),
but a write error on the active-wallpaper state file propagates out of
`save_current_wallpaper` as an exception. -/
theorem C6_amended (v : Int) (p : String) (file : Option String) :
    (save_volume false v file).1 = false ∧
    (save_volume true v file).1 = true ∧
    save_current_wallpaper false p = Except.error () ∧
    save_current_wallpaper true p = Except.ok ⟨some p⟩ :=
  ⟨rfl, rfl, rfl, rfl⟩

/-- Claim C7: for every prior persisted state and every outcome of the
supervisor stop/disable calls (both results are discarded), `_on_stop`
leaves the persisted active-wallpaper path absent; in particular calling it
when nothing is running (state already absent, supervisor calls failing) is
safe and yields the same absent state. -/
theorem C7_stop_always_clears_state (env : StopEnv) (s : AppState) :
    (on_stop env s).stateFile = none := by
  obtain ⟨sf⟩ := s
  cases sf <;> rfl

/-- Claim C8: `get_current_wallpaper` answers `none` whenever the supervisor
reports the service inactive, and any path it does report comes from the
persisted state file (stripped), still exists on disk, and was produced
under an active supervisor — so a stale on-disk path with an inactive
supervisor is never reported. -/
theorem C8_current_wallpaper_reconciliation (status : ServiceStatus)
    (s : AppState) (fs : FsEnv) :
    (status.active = false → get_current_wallpaper status s fs = none) ∧
    (∀ p, get_current_wallpaper status s fs = some p →
      status.active = true ∧ fs.pathExists p = true ∧
      ∃ c, s.stateFile = some c ∧ pyStrip c = p) := by
  constructor
  · intro h
    simp [get_current_wallpaper, h]
  · intro p hp
    unfold get_current_wallpaper at hp
    by_cases ha : status.active
    · rw [if_pos ha] at hp
      cases hsf : s.stateFile with
      | none => rw [hsf] at hp; exact absurd hp (by simp)
      | some c =>
        rw [hsf] at hp
        dsimp only at hp
        by_cases hc : pyStrip c ≠ "" ∧ fs.pathExists (pyStrip c) = true
        · simp only [if_pos hc, Option.some.injEq] at hp
          subst hp
          exact ⟨ha, hc.2, c, rfl, rfl⟩
        · rw [if_neg hc] at hp; cases hp
    · rw [if_neg ha] at hp; cases hp

/-- Witness for C8 at a concrete input: an inactive supervisor forces the
answer to `none` even though a stale path sits on disk and exists. -/
theorem C8_witness :
    get_current_wallpaper ⟨false, false, "inactive"⟩ ⟨some "/stale.mp4"⟩
      ⟨fun _ => true⟩ = none :=
  (C8_current_wallpaper_reconciliation ⟨false, false, "inactive"⟩
    ⟨some "/stale.mp4"⟩ ⟨fun _ => true⟩).1 rfl

/-- Claim C9: saving volume `v` and then reading returns `v` for
`v ∈ {0, 50, 100}` (for any prior file content), and reading an absent or
unparsable volume file returns the default `50`. -/
theorem C9_volume_roundtrip_and_default (file : Option String) :
    get_volume (save_volume true 0 file).2 = 0 ∧
    get_volume (save_volume true 50 file).2 = 50 ∧
    get_volume (save_volume true 100 file).2 = 100 ∧
    get_volume none = 50 ∧
    get_volume (some "not a number") = 50 := by
  refine ⟨?_, ?_, ?_, rfl, by decide⟩
  · show get_volume (some (toString (0 : Int))) = 0
    decide
  · show get_volume (some (toString (50 : Int))) = 50
    decide
  · show get_volume (some (toString (100 : Int))) = 100
    decide

/-- Claim C10: whenever the volume file's content parses as an integer `n`
after stripping whitespace, `get_volume` returns `n` unchanged — no clamping
or range validation happens on read; the default `50` applies only when the
file is absent or parsing fails. -/
theorem C10_no_clamping (content : String) (n : Int)
    (h : pyInt (pyStrip content) = some n) :
    get_volume (some content) = n := by
  simp [get_volume, h]

/-- Witness for C10 at out-of-range contents: `"999"` and `" -5 "` both
parse and are returned unclamped. -/
theorem C10_witness :
    pyInt (pyStrip "999") = some 999 ∧ get_volume (some "999") = 999 ∧
    pyInt (pyStrip " -5 ") = some (-5) ∧ get_volume (some " -5 ") = -5 :=
  ⟨by decide, C10_no_clamping "999" 999 (by decide), by decide,
   C10_no_clamping " -5 " (-5) (by decide)⟩

end Pivio
